import Mathlib

/-!
Verification of the configuration-resolution and serialization logic of the
mcp-snowflake-server repository (src/mcp_snowflake_server/__init__.py and
src/mcp_snowflake_server/serialization.py), shallowly embedded in Lean 4.

Python dictionaries of connection parameters are embedded as association
lists `Dict α := List (String × α)` whose key order models the dict's
insertion order; `dictInsert` models `d[k] = v` and `dictMerge a b` models
the last-write-wins merge `{**a, **b}`.
-/

namespace McpSnowflake

/-- A Python dict with string keys, value type `α`, in insertion order. -/
abbrev Dict (α : Type) : Type := List (String × α)

/-- Python dict lookup `m[k]` / `m.get(k)`: the value stored at key `k`.
On a dict built by `dictInsert` there is at most one entry per key. -/
def lookup {α : Type} : Dict α → String → Option α
  | [], _ => none
  | (k0, v) :: rest, k => if k0 = k then some v else lookup rest k

/-- Python membership test `k in m`. -/
def containsKey {α : Type} (m : Dict α) (k : String) : Bool :=
  (lookup m k).isSome

/-- Python dict assignment `m[k] = v`: overwrite in place if the key is
present (keeping its position), otherwise append at the end. -/
def dictInsert {α : Type} : Dict α → String → α → Dict α
  | [], k, v => [(k, v)]
  | (k0, w) :: rest, k, v =>
      if k0 = k then (k, v) :: rest else (k0, w) :: dictInsert rest k v

/-- Python dict merge `{**a, **b}` — entries of `b` written over `a`
left to right, the rightmost write winning per key. -/
def dictMerge {α : Type} (a b : Dict α) : Dict α :=
  b.foldl (fun acc p => dictInsert acc p.1 p.2) a

/-- The keys of the dict are pairwise distinct (true of every real Python
dict; association lists admit duplicates, so theorems about per-key
precedence assume it). -/
def NodupKeys {α : Type} (m : Dict α) : Prop :=
  (m.map Prod.fst).Nodup

instance {α : Type} (m : Dict α) : Decidable (NodupKeys m) := by
  unfold NodupKeys; infer_instance

/-! ## Inline argument parsing (`parse_args`, __init__.py lines 96-109)

The loop `for i in range(0, len(unknown), 2)` walks the unknown-token list
two at a time, breaking when no value token follows, and records
`connection_args[key[2:]] = value` only when the even-position token starts
with `--`. -/

/-- Python `key.startswith("--")`: the first two characters are dashes. -/
def startsWithFlagMarker (s : String) : Bool :=
  s.toList.take 2 == ['-', '-']

/-- Python `key[2:]`: the string without its first two characters. -/
def stripFlagMarker (s : String) : String :=
  String.mk (s.toList.drop 2)

/-- The body of the pairing loop over the unknown tokens, with the
`connection_args` dict as accumulator. -/
def parse_unknown_args : List String → Dict String → Dict String
  | k :: v :: rest, acc =>
      parse_unknown_args rest
        (if startsWithFlagMarker k then dictInsert acc (stripFlagMarker k) v
         else acc)
  | _, acc => acc

/-- `parse_args`' construction of `connection_args` from the tokens argparse
did not recognize (__init__.py lines 96-109). -/
def parse_inline_arguments (unknown : List String) : Dict String :=
  parse_unknown_args unknown []

/-! ## TOML loading (`load_connection_from_toml`, __init__.py lines 18-47) -/

/-- What the filesystem holds at a path that exists: either content that
`tomllib.load` rejects (with the parser's error message), or a parsed
document, i.e. a dict of top-level sections each holding a flat dict. -/
inductive TomlFile (α : Type) : Type
  | malformed (emsg : String)
  | parsed (toml_data : Dict (Dict α))

/-- The filesystem as seen through `open`: `none` when the path does not
exist (FileNotFoundError), otherwise the file's content. -/
abbrev FileSystem (α : Type) : Type := String → Option (TomlFile α)

/-- The exceptions `load_connection_from_toml` raises:
FileNotFoundError (NotFound kind), ValueError (Malformed kind),
KeyError (MissingSection kind), each with its message. -/
inductive LoadError : Type
  | notFound (msg : String)
  | malformed (msg : String)
  | missingSection (msg : String)

/-- The message carried by a `LoadError` (Python `str(e)`, up to
KeyError's extra quoting of its argument). -/
def loadErrorMsg : LoadError → String
  | .notFound m => m
  | .malformed m => m
  | .missingSection m => m

/-- `load_connection_from_toml(toml_file, connection_name)`: open and parse
the file, then return the named top-level section. -/
def load_connection_from_toml {α : Type} (fs : FileSystem α)
    (toml_file connection_name : String) : Except LoadError (Dict α) :=
  match fs toml_file with
  | none => .error (.notFound ("TOML file not found: " ++ toml_file))
  | some (.malformed emsg) => .error (.malformed ("Invalid TOML file: " ++ emsg))
  | some (.parsed toml_data) =>
      match lookup toml_data connection_name with
      | some connection_config => .ok connection_config
      | none => .error (.missingSection
          ("Connection \x27" ++ connection_name ++ "\x27 not found in TOML file"))

/-! ## Resolution (`main`, __init__.py lines 141-165) -/

/-- The errors `main` raises during resolution: the ValueError for a
partial file-config request (Configuration kind), the ValueError wrapping a
TOML load failure, and the AssertionError for a missing required field
(MissingRequiredField kind), carrying the field name and the assert
message. -/
inductive ResolveError : Type
  | configuration (msg : String)
  | tomlLoad (msg : String)
  | missingRequiredField (field msg : String)

/-- Message of the `database` assert (__init__.py lines 160-162). -/
def databaseMsg : String :=
  "You must provide the database as \"--database\" argument, \"SNOWFLAKE_DATABASE\" environment variable, or in the TOML file."

/-- Message of the `schema` assert (__init__.py lines 163-165). -/
def schemaMsg : String :=
  "You must provide the schema as \"--schema\" argument, \"SNOWFLAKE_SCHEMA\" environment variable, or in the TOML file."

/-- Message of the partial file-config ValueError (__init__.py line 154). -/
def bothTogetherMsg : String :=
  "Both --connections-file and --connection-name must be provided together"

/-- Python truthiness of an optional string (argparse stores `None` when a
flag is absent; an explicitly supplied empty string is also falsy). -/
def truthy : Option String → Bool
  | none => false
  | some s => !(s == "")

/-- The two asserts at the end of `main` (lines 160-165): `database` is
checked first, then `schema`; on success the merged dict proceeds to the
server unchanged. -/
def validate_required {α : Type} (m : Dict α) : Except ResolveError (Dict α) :=
  if containsKey m "database" = false then
    .error (.missingRequiredField "database" databaseMsg)
  else if containsKey m "schema" = false then
    .error (.missingRequiredField "schema" schemaMsg)
  else .ok m

/-- The configuration-resolution core of `main` (lines 141-165): if both
`connections_file` and `connection_name` are truthy, load the TOML section
and merge `{**env, **inline, **toml}` (load failures re-raised as a
ValueError); if exactly one is truthy, raise the Configuration ValueError;
otherwise merge `{**env, **inline}`; finally run the two asserts. -/
def resolve {α : Type} (connection_args_from_env connection_args : Dict α)
    (fs : FileSystem α) (connections_file connection_name : Option String) :
    Except ResolveError (Dict α) :=
  if truthy connections_file && truthy connection_name then
    match load_connection_from_toml fs (connections_file.getD "")
        (connection_name.getD "") with
    | .ok toml_connection_args =>
        validate_required
          (dictMerge (dictMerge connection_args_from_env connection_args)
            toml_connection_args)
    | .error e =>
        .error (.tomlLoad ("Failed to load TOML configuration: " ++ loadErrorMsg e))
  else if truthy connections_file || truthy connection_name then
    .error (.configuration bothTogetherMsg)
  else
    validate_required (dictMerge connection_args_from_env connection_args)

/-! ## Value model (serialization.py)

Python runtime values reaching the serializers. A CPython float is either
NaN or a finite value; finite floats are abstracted as exact rationals
(adequate here: every float in the spec's scenarios originates from a short
decimal literal, which round-trips exactly through Python's shortest
round-trip `repr`). `Decimal` is likewise carried as a rational, and
`float(Decimal)` is the identity on that payload. -/

/-- A CPython float: NaN, or a finite value (abstracted as an exact
rational; infinities are not exercised by this code's spec and are
omitted). -/
inductive PyFloat : Type
  | nan
  | finite (q : ℚ)

/-- A Python `Decimal`: `Decimal("nan")` is constructible, so NaN is a
value of the type; finite values are carried as exact rationals (Decimal
arithmetic is exact decimal arithmetic; infinities are not exercised by
this code's spec and are omitted). -/
inductive PyDecimal : Type
  | nan
  | finite (q : ℚ)

/-- Python `float(Decimal)`: a NaN Decimal converts to float NaN; a finite
value converts to its float value (exact in this abstraction). -/
def floatOfDecimal : PyDecimal → PyFloat
  | .nan => .nan
  | .finite q => .finite q

mutual

/-- A Python value as traversed by `to_json` / `to_yaml`. Dict entries and
list elements are spelled as their own inductive families so that the
renderers below are structural recursions. -/
inductive PyVal : Type
  | noneV
  | bool (b : Bool)
  | int (n : Int)
  | float (f : PyFloat)
  | str (s : String)
  | decimal (d : PyDecimal)
  | date (y m d : Nat)
  | timestamp (y mo d h mi s : Nat)
  | dict (entries : PyEntries)
  | list (elems : PyElems)

/-- The key/value entries of a Python dict, in insertion order. -/
inductive PyEntries : Type
  | nil
  | cons (key : String) (value : PyVal) (rest : PyEntries)

/-- The elements of a Python list, in order. -/
inductive PyElems : Type
  | nil
  | cons (head : PyVal) (rest : PyElems)

end

/-- Two-digit zero-padded decimal, as in CPython's `%02d`. -/
def pad2 (n : Nat) : String :=
  if n < 10 then "0" ++ toString n else toString n

/-- Four-digit zero-padded decimal, as in CPython's `%04d`. -/
def pad4 (n : Nat) : String :=
  if n < 10 then "000" ++ toString n
  else if n < 100 then "00" ++ toString n
  else if n < 1000 then "0" ++ toString n
  else toString n

/-- `datetime.date.isoformat()`: `YYYY-MM-DD`. -/
def isoDate (y m d : Nat) : String :=
  pad4 y ++ "-" ++ pad2 m ++ "-" ++ pad2 d

/-- `pandas.Timestamp.isoformat()` for a whole-second timestamp:
`YYYY-MM-DDTHH:MM:SS`. -/
def isoTimestamp (y mo d h mi s : Nat) : String :=
  isoDate y mo d ++ "T" ++ pad2 h ++ ":" ++ pad2 mi ++ ":" ++ pad2 s

/-- CPython `repr`/`str` of a finite float whose value has a finite decimal
expansion (the shortest round-trip representation of such a float is
exactly that expansion, with `.0` appended to integral values); values
without one are outside the fragment exercised and fall back to the
rational's own print form. -/
def floatRepr (q : ℚ) : String :=
  match (List.range 18).find? (fun k => (10 : ℕ) ^ k % q.den == 0) with
  | some k =>
      let sign : String := if q.num < 0 then "-" else ""
      let ds : List Char :=
        (toString (q.num.natAbs * ((10 : ℕ) ^ k / q.den))).toList
      if k = 0 then sign ++ String.mk ds ++ ".0"
      else
        let t : List Char :=
          if ds.length ≤ k then List.replicate (k + 1 - ds.length) '0' ++ ds
          else ds
        sign ++ String.mk (t.take (t.length - k)) ++ "." ++
          String.mk (t.drop (t.length - k))
  | none => toString q

/-- `_serialize_value` (serialization.py lines 14-25): dates and timestamps
to their ISO string, Decimal to `float(obj)` (the Decimal branch precedes
the NaN check and performs none of its own, so `Decimal("nan")` becomes
float NaN, not None), float NaN to None, everything else passed through
unchanged. (`pd.Timestamp` is also an instance of `date`, so the first two
source branches both produce `isoformat()`.) -/
def serialize_value : PyVal → PyVal
  | .date y m d => .str (isoDate y m d)
  | .timestamp y mo d h mi s => .str (isoTimestamp y mo d h mi s)
  | .decimal d => .float (floatOfDecimal d)
  | .float .nan => .noneV
  | v => v

/-- The values `_serialize_value` rewrites (the four isinstance branches);
everything else hits the final `return obj`. -/
def isSpecial : PyVal → Bool
  | .date _ _ _ => true
  | .timestamp _ _ _ _ _ _ => true
  | .decimal _ => true
  | .float .nan => true
  | _ => false

/-! ## JSON rendering (`to_json`, serialization.py lines 67-69)

`json.dumps(data, default=json_serializer, indent=2)`. The encoder
serializes `dict`, `list`, `str`, `int`, `float`, `bool` and `None`
natively — in particular a NaN float is rendered as the bare token `NaN`
(`allow_nan` defaults to true), and the `default` hook is **not** invoked
for it. The hook (= `_serialize_value`) is invoked only for objects the
encoder cannot serialize: `Decimal`, `date`, `Timestamp`. -/

/-- `n` spaces. -/
def spaces (n : Nat) : String := String.mk (List.replicate n ' ')

/-- JSON string quoting (none of the strings exercised here need escape
sequences). -/
def jsonQuote (s : String) : String := "\"" ++ s ++ "\""

/-- The encoder's native rendering of a scalar, `none` on containers and on
the types the encoder hands to the `default` hook. -/
def jsonAtom : PyVal → Option String
  | .noneV => some "null"
  | .bool b => some (if b then "true" else "false")
  | .int n => some (toString n)
  | .float .nan => some "NaN"
  | .float (.finite q) => some (floatRepr q)
  | .str s => some (jsonQuote s)
  | _ => none

mutual

/-- `json.dumps` body at the given indentation level with `indent=2`:
native scalars directly; `Decimal`/`date`/`Timestamp` through the
`default` hook (whose results are always native scalars here); containers
with one entry per line. -/
def jsonRender : Nat → PyVal → String
  | _, .noneV => "null"
  | _, .bool b => if b then "true" else "false"
  | _, .int n => toString n
  | _, .float .nan => "NaN"
  | _, .float (.finite q) => floatRepr q
  | _, .str s => jsonQuote s
  | _, .decimal d => (jsonAtom (serialize_value (.decimal d))).getD ""
  | _, .date y m d => (jsonAtom (serialize_value (.date y m d))).getD ""
  | _, .timestamp y mo d h mi s =>
      (jsonAtom (serialize_value (.timestamp y mo d h mi s))).getD ""
  | _, .dict .nil => "\x7b\x7d"
  | level, .dict (.cons k v rest) =>
      "\x7b\n" ++ jsonEntries (level + 2) (.cons k v rest) ++ "\n" ++
        spaces level ++ "\x7d"
  | _, .list .nil => "[]"
  | level, .list (.cons v rest) =>
      "[\n" ++ jsonElems (level + 2) (.cons v rest) ++ "\n" ++
        spaces level ++ "]"

/-- The `",\n"`-separated key/value lines of a JSON object. -/
def jsonEntries : Nat → PyEntries → String
  | _, .nil => ""
  | level, .cons k v .nil =>
      spaces level ++ jsonQuote k ++ ": " ++ jsonRender level v
  | level, .cons k v (.cons k2 v2 rest) =>
      spaces level ++ jsonQuote k ++ ": " ++ jsonRender level v ++ ",\n" ++
        jsonEntries level (.cons k2 v2 rest)

/-- The `",\n"`-separated element lines of a JSON array. -/
def jsonElems : Nat → PyElems → String
  | _, .nil => ""
  | level, .cons v .nil => spaces level ++ jsonRender level v
  | level, .cons v (.cons v2 rest) =>
      spaces level ++ jsonRender level v ++ ",\n" ++
        jsonElems level (.cons v2 rest)

end

/-- `to_json` (serialization.py lines 67-69). -/
def to_json (data : PyVal) : String := jsonRender 0 data

/-! ## YAML rendering (`to_yaml`, serialization.py lines 33-64)

`yaml.dump(data, Dumper=SnowflakeDumper, indent=2, sort_keys=False)`.
`SnowflakeDumper` is `yaml.SafeDumper` with `_yaml_representer` registered
for exactly `date`, `pd.Timestamp`, `Decimal` and `float`; booleans,
integers, strings and `None` keep the SafeDumper default representers
(which already use the standard core tags: lowercase `true`/`false` for
bool, decimal digits for int). The embedding covers the fragment the code
exercises: documents that are flat mappings of scalars (and bare scalars),
emitted in block style; the PyYAML emitter and implicit resolver are
modelled only as far as those scalars need. -/

/-- The YAML 1.1 core boolean tag. -/
def boolTag : String := "tag:yaml.org,2002:bool"

/-- The YAML 1.1 core integer tag. -/
def intTag : String := "tag:yaml.org,2002:int"

/-- The YAML 1.1 core float tag. -/
def floatTag : String := "tag:yaml.org,2002:float"

/-- The YAML 1.1 core string tag. -/
def strTag : String := "tag:yaml.org,2002:str"

/-- The YAML 1.1 core null tag. -/
def nullTag : String := "tag:yaml.org,2002:null"

/-- CPython `str` of a float: `"nan"` for NaN, otherwise the same shortest
round-trip form as `repr`. -/
def strOfFloat : PyFloat → String
  | .nan => "nan"
  | .finite q => floatRepr q

/-- The representer dispatch of `SnowflakeDumper`: for the four registered
types, `_yaml_representer` (serialize first, then branch on the result's
type to pick tag and text, `str(...)` of the value as text — a Decimal
always serializes to a float, so `Decimal("nan")` lands in the float
branch as `nan`, not in the `is None` branch); for the remaining scalars,
the SafeDumper defaults. Returns `(tag, text)` of the scalar node, or
`none` for containers. -/
def yamlRepresent : PyVal → Option (String × String)
  | .bool b => some (boolTag, if b then "true" else "false")
  | .int n => some (intTag, toString n)
  | .noneV => some (nullTag, "null")
  | .float .nan => some (nullTag, "")
  | .float (.finite q) => some (floatTag, floatRepr q)
  | .decimal d => some (floatTag, strOfFloat (floatOfDecimal d))
  | .date y m d => some (strTag, isoDate y m d)
  | .timestamp y mo d h mi s => some (strTag, isoTimestamp y mo d h mi s)
  | .str s => some (strTag, s)
  | _ => none

/-- Nonempty and all decimal digits. -/
def isDigitString (s : String) : Bool :=
  !s.toList.isEmpty && s.toList.all (fun c => c.isDigit)

/-- The words PyYAML's implicit resolver reads as boolean true. -/
def yamlBoolTrueWords : List String :=
  ["yes", "Yes", "YES", "true", "True", "TRUE", "on", "On", "ON"]

/-- The words PyYAML's implicit resolver reads as boolean false. -/
def yamlBoolFalseWords : List String :=
  ["no", "No", "NO", "false", "False", "FALSE", "off", "Off", "OFF"]

/-- The plain scalars PyYAML's implicit resolver reads as null. -/
def yamlNullWords : List String :=
  ["", "~", "null", "Null", "NULL"]

/-- Digits with one decimal point (a float-looking plain scalar). -/
def isFloatString (s : String) : Bool :=
  match s.toList.splitOn '.' with
  | [a, b] =>
      (a.all (fun c => c.isDigit)) && (b.all (fun c => c.isDigit)) &&
        !(a.isEmpty && b.isEmpty)
  | _ => false

/-- A `YYYY-MM-DD` shaped plain scalar (PyYAML resolves these to its
timestamp tag). -/
def isIsoDateString (s : String) : Bool :=
  match s.toList with
  | [a, b, c, d, '-', e, f, '-', g, h] =>
      [a, b, c, d, e, f, g, h].all (fun ch => ch.isDigit)
  | _ => false

/-- The fragment of PyYAML's implicit resolver needed here: a plain scalar
of this shape would be read back as a non-string, so the emitter must quote
it when the node's tag is the string tag. -/
def resolvesNonString (s : String) : Bool :=
  yamlBoolTrueWords.contains s || yamlBoolFalseWords.contains s ||
  yamlNullWords.contains s || isDigitString s ||
  (match s.toList with
   | '-' :: rest => !rest.isEmpty && rest.all (fun c => c.isDigit)
   | _ => false) ||
  isFloatString s || isIsoDateString s

/-- Single-quote a scalar (no embedded quotes arise here). -/
def singleQuoted (s : String) : String := "\x27" ++ s ++ "\x27"

/-- The emitted text of a scalar node: plain style when the plain form
reads back under the node's own tag, single-quoted when a string's plain
form would resolve to a non-string or an empty scalar cannot be plain. -/
def yamlScalarOutput (v : PyVal) : String :=
  match yamlRepresent v with
  | some (tag, text) =>
      if tag = strTag then
        if resolvesNonString text then singleQuoted text else text
      else if text = "" then singleQuoted text
      else text
  | none => ""

/-- One `key: value` line of a block mapping. -/
def yamlLine (k : String) (v : PyVal) : String :=
  (if resolvesNonString k then singleQuoted k else k) ++ ": " ++
    yamlScalarOutput v ++ "\n"

/-- The emitted lines of a block mapping, one entry each, in insertion
order. -/
def yamlLines : PyEntries → String
  | .nil => ""
  | .cons k v rest => yamlLine k v ++ yamlLines rest

/-- `to_yaml` (serialization.py lines 62-64) on the fragment exercised:
a flat mapping becomes one `key: value` line per entry in insertion order
(`sort_keys=False`); a bare scalar becomes its scalar text. -/
def to_yaml : PyVal → String
  | .dict entries => yamlLines entries
  | v => yamlScalarOutput v ++ "\n"

/-- Numeric value of a string of decimal digits. -/
def digitsVal (l : List Char) : Nat :=
  l.foldl (fun acc c => acc * 10 + (c.toNat - 48)) 0

/-- PyYAML's implicit resolution of a plain scalar on loading, restricted
to the shapes above: how the emitted text reads back. -/
def resolvePlain (s : String) : PyVal :=
  if yamlBoolTrueWords.contains s then .bool true
  else if yamlBoolFalseWords.contains s then .bool false
  else if yamlNullWords.contains s then .noneV
  else if isDigitString s then .int (Int.ofNat (digitsVal s.toList))
  else .str s

/-- Test fixture: a filesystem holding one well-formed TOML file with a
single top-level section `dev`, and one file whose content does not parse. -/
def fsSample : FileSystem String := fun p =>
  if p = "connections.toml" then
    some (.parsed [("dev", [("warehouse", "WF"), ("schema", "sc")])])
  else if p = "bad.toml" then some (.malformed "parse error")
  else none

/-! ## Lemmas about the dict model -/

theorem containsKey_false_lookup {α : Type} {m : Dict α} {k : String}
    (h : containsKey m k = false) : lookup m k = none := by
  unfold containsKey at h
  cases hl : lookup m k with
  | none => rfl
  | some v => rw [hl] at h; simp at h

theorem lookup_append {α : Type} (a b : Dict α) (k : String) :
    lookup (a ++ b) k = (lookup a k).orElse (fun _ => lookup b k) := by
  induction a with
  | nil => rfl
  | cons p rest ih =>
      obtain ⟨k0, v⟩ := p
      by_cases h : k0 = k
      · simp [lookup, h]
      · simp [lookup, h, ih]

theorem lookup_dictInsert_self {α : Type} (m : Dict α) (k : String) (v : α) :
    lookup (dictInsert m k v) k = some v := by
  induction m with
  | nil => simp [dictInsert, lookup]
  | cons p rest ih =>
      obtain ⟨k0, w⟩ := p
      by_cases h : k0 = k
      · simp [dictInsert, lookup, h]
      · simp [dictInsert, lookup, h, ih]

theorem lookup_dictInsert_ne {α : Type} (m : Dict α) {ki k : String} (v : α)
    (h : ki ≠ k) : lookup (dictInsert m ki v) k = lookup m k := by
  induction m with
  | nil => simp [dictInsert, lookup, h]
  | cons p rest ih =>
      obtain ⟨k0, w⟩ := p
      by_cases h0 : k0 = ki
      · subst h0; simp [dictInsert, lookup, h]
      · simp [dictInsert, lookup, h0, ih]

theorem lookup_none_of_key_not_mem {α : Type} {m : Dict α} {k : String}
    (h : k ∉ m.map Prod.fst) : lookup m k = none := by
  induction m with
  | nil => rfl
  | cons p rest ih =>
      obtain ⟨k0, v⟩ := p
      simp only [List.map_cons, List.mem_cons] at h
      push_neg at h
      have h1 : k0 ≠ k := fun e => h.1 e.symm
      simp [lookup, h1, ih h.2]

theorem lookup_dictMerge {α : Type} (a b : Dict α) (k : String)
    (hb : NodupKeys b) :
    lookup (dictMerge a b) k = (lookup b k).orElse (fun _ => lookup a k) := by
  induction b generalizing a with
  | nil => rfl
  | cons p rest ih =>
      obtain ⟨k0, v⟩ := p
      have hb2 : (k0 :: rest.map Prod.fst).Nodup := hb
      have hcons := List.nodup_cons.mp hb2
      have hstep : dictMerge a ((k0, v) :: rest) =
          dictMerge (dictInsert a k0 v) rest := rfl
      rw [hstep, ih (dictInsert a k0 v) hcons.2]
      by_cases h : k0 = k
      · subst h
        rw [lookup_none_of_key_not_mem hcons.1, lookup_dictInsert_self]
        simp [lookup]
      · rw [lookup_dictInsert_ne a v h]
        simp [lookup, h]

theorem lookup_dictMerge_three {α : Type} (E I F : Dict α) (k : String)
    (hI : NodupKeys I) (hF : NodupKeys F) :
    lookup (dictMerge (dictMerge E I) F) k =
      (lookup F k).orElse (fun _ => (lookup I k).orElse (fun _ => lookup E k)) := by
  rw [lookup_dictMerge _ _ _ hF]
  cases hFk : lookup F k with
  | some v => rfl
  | none =>
      show lookup (dictMerge E I) k =
        (lookup I k).orElse (fun _ => lookup E k)
      exact lookup_dictMerge E I k hI

theorem validate_required_not_configuration {α : Type} (m : Dict α)
    (msg : String) : validate_required m ≠ .error (.configuration msg) := by
  unfold validate_required
  split
  · simp
  · split <;> simp

/-! ## Claim theorems: configuration resolver -/

/-- Claim C1: for every environment mapping `E`, inline mapping `I` and
successfully loaded file section `F`, the resolved ConnectionConfig is the
last-write-wins union `{**E, **I, **F}` when a file request (truthy path
and section name) is supplied, and `{**E, **I}` when none is; per key the
file value wins over the inline value, which wins over the environment
value (__init__.py lines 141-158). -/
theorem claim_C1_source_precedence {α : Type} (E I F : Dict α)
    (fs : FileSystem α) (connections_file connection_name : Option String) :
    (truthy connections_file = true → truthy connection_name = true →
      load_connection_from_toml fs (connections_file.getD "")
          (connection_name.getD "") = .ok F →
      containsKey (dictMerge (dictMerge E I) F) "database" = true →
      containsKey (dictMerge (dictMerge E I) F) "schema" = true →
      resolve E I fs connections_file connection_name =
        .ok (dictMerge (dictMerge E I) F)) ∧
    (NodupKeys I → NodupKeys F → ∀ k,
      lookup (dictMerge (dictMerge E I) F) k =
        (lookup F k).orElse (fun _ =>
          (lookup I k).orElse (fun _ => lookup E k))) ∧
    (truthy connections_file = false → truthy connection_name = false →
      containsKey (dictMerge E I) "database" = true →
      containsKey (dictMerge E I) "schema" = true →
      resolve E I fs connections_file connection_name = .ok (dictMerge E I)) ∧
    (NodupKeys I → ∀ k,
      lookup (dictMerge E I) k =
        (lookup I k).orElse (fun _ => lookup E k)) := by
  refine ⟨?_, ?_, ?_, ?_⟩
  · intro h1 h2 h3 h4 h5
    simp [resolve, h1, h2, h3, validate_required, h4, h5]
  · exact fun hI hF k => lookup_dictMerge_three E I F k hI hF
  · intro h1 h2 h4 h5
    simp [resolve, h1, h2, validate_required, h4, h5]
  · exact fun hI k => lookup_dictMerge E I k hI

theorem claim_C1_witness :
    resolve [("account", "A"), ("warehouse", "WE")]
        [("warehouse", "WI"), ("database", "db")] fsSample
        (some "connections.toml") (some "dev") =
      .ok (dictMerge
        (dictMerge [("account", "A"), ("warehouse", "WE")]
          [("warehouse", "WI"), ("database", "db")])
        [("warehouse", "WF"), ("schema", "sc")]) ∧
    lookup (dictMerge
        (dictMerge [("account", "A"), ("warehouse", "WE")]
          [("warehouse", "WI"), ("database", "db")])
        [("warehouse", "WF"), ("schema", "sc")]) "warehouse" =
      (lookup [("warehouse", "WF"), ("schema", "sc")] "warehouse").orElse
        (fun _ =>
          (lookup [("warehouse", "WI"), ("database", "db")]
              "warehouse").orElse
            (fun _ =>
              lookup [("account", "A"), ("warehouse", "WE")] "warehouse")) := by
  refine ⟨?_, ?_⟩
  · exact (claim_C1_source_precedence
      [("account", "A"), ("warehouse", "WE")]
      [("warehouse", "WI"), ("database", "db")]
      [("warehouse", "WF"), ("schema", "sc")] fsSample
      (some "connections.toml") (some "dev")).1 rfl rfl rfl
        (by decide) (by decide)
  · exact (claim_C1_source_precedence
      [("account", "A"), ("warehouse", "WE")]
      [("warehouse", "WI"), ("database", "db")]
      [("warehouse", "WF"), ("schema", "sc")] fsSample
      (some "connections.toml") (some "dev")).2.1
        (by decide) (by decide) "warehouse"

/-- Claim C2: after merging, resolution fails with a
MissingRequiredField-kind error when `database` is absent (also when both
are absent — `database` is asserted first), fails naming `schema` when only
`schema` is absent, and succeeds whatever else the mapping contains when
both are present; each failure message describes the flag, the environment
variable and the TOML file as the ways to supply the field
(__init__.py lines 160-165). -/
theorem claim_C2_required_fields {α : Type} (m E I : Dict α)
    (fs : FileSystem α) :
    resolve E I fs none none = validate_required (dictMerge E I) ∧
    (containsKey m "database" = false →
      validate_required m =
        .error (.missingRequiredField "database" databaseMsg)) ∧
    (containsKey m "database" = true → containsKey m "schema" = false →
      validate_required m = .error (.missingRequiredField "schema" schemaMsg)) ∧
    (containsKey m "database" = true → containsKey m "schema" = true →
      validate_required m = .ok m) ∧
    (∃ s1 s2 s3 s4 : String,
      databaseMsg =
        s1 ++ "--database" ++ s2 ++ "SNOWFLAKE_DATABASE" ++ s3 ++
          "TOML file" ++ s4) ∧
    (∃ s1 s2 s3 s4 : String,
      schemaMsg =
        s1 ++ "--schema" ++ s2 ++ "SNOWFLAKE_SCHEMA" ++ s3 ++
          "TOML file" ++ s4) := by
  refine ⟨rfl, ?_, ?_, ?_, ?_, ?_⟩
  · intro h1; simp [validate_required, h1]
  · intro h1 h2; simp [validate_required, h1, h2]
  · intro h1 h2; simp [validate_required, h1, h2]
  · exact ⟨"You must provide the database as \"", "\" argument, \"",
      "\" environment variable, or in the ", ".", by decide⟩
  · exact ⟨"You must provide the schema as \"", "\" argument, \"",
      "\" environment variable, or in the ", ".", by decide⟩

theorem claim_C2_witness :
    validate_required ([] : Dict String) =
      .error (.missingRequiredField "database" databaseMsg) ∧
    validate_required [("database", "d")] =
      .error (.missingRequiredField "schema" schemaMsg) ∧
    validate_required [("database", "d"), ("schema", "s"), ("role", "r")] =
      .ok [("database", "d"), ("schema", "s"), ("role", "r")] := by
  refine ⟨?_, ?_, ?_⟩
  · exact (claim_C2_required_fields ([] : Dict String) [] [] fsSample).2.1
      (by decide)
  · exact (claim_C2_required_fields [("database", "d")] [] [] fsSample).2.2.1
      (by decide) (by decide)
  · exact (claim_C2_required_fields
      [("database", "d"), ("schema", "s"), ("role", "r")] [] [] fsSample).2.2.2.1
      (by decide) (by decide)

/-- Claim C3: resolution fails with the Configuration-kind error ("both
must be provided together") exactly when one of file path / section name is
truthy and the other is not, over all four presence combinations
(__init__.py lines 141-154). -/
theorem claim_C3_configuration_error {α : Type} (E I : Dict α)
    (fs : FileSystem α) (connections_file connection_name : Option String) :
    resolve E I fs connections_file connection_name =
        .error (.configuration bothTogetherMsg) ↔
      truthy connections_file ≠ truthy connection_name := by
  unfold resolve
  cases hf : truthy connections_file <;> cases hn : truthy connection_name
  · simp [validate_required_not_configuration]
  · simp
  · simp
  · cases hl : load_connection_from_toml fs (connections_file.getD "")
        (connection_name.getD "") with
    | ok F => simp [validate_required_not_configuration]
    | error e => simp

theorem claim_C3_witness :
    resolve ([] : Dict String) [] fsSample (some "connections.toml") none =
      .error (.configuration bothTogetherMsg) :=
  (claim_C3_configuration_error [] [] fsSample
    (some "connections.toml") none).mpr (by decide)

/-- Claim C6: the inline-argument loop pairs each `--`-marked flag token
with the immediately following token verbatim (marker stripped to form the
key), silently drops a trailing unmatched flag, and in particular parses
`["--warehouse", "WH1", "--role"]` to exactly `{"warehouse": "WH1"}`
(__init__.py lines 96-109). -/
theorem claim_C6_inline_pairing :
    (∀ (k v : String) (rest : List String) (acc : Dict String),
      startsWithFlagMarker k = true →
      parse_unknown_args (k :: v :: rest) acc =
        parse_unknown_args rest (dictInsert acc (stripFlagMarker k) v)) ∧
    (∀ (k : String) (acc : Dict String), parse_unknown_args [k] acc = acc) ∧
    parse_inline_arguments ["--warehouse", "WH1", "--role"] =
      [("warehouse", "WH1")] := by
  refine ⟨?_, ?_, ?_⟩
  · intro k v rest acc h
    simp [parse_unknown_args, h]
  · intro k acc
    rfl
  · rfl

theorem claim_C6_witness :
    parse_unknown_args ["--warehouse", "WH1"] [] =
      parse_unknown_args []
        (dictInsert [] (stripFlagMarker "--warehouse") "WH1") ∧
    parse_unknown_args ["--role"] [("warehouse", "WH1")] =
      [("warehouse", "WH1")] :=
  ⟨claim_C6_inline_pairing.1 "--warehouse" "WH1" [] [] (by decide),
   claim_C6_inline_pairing.2.1 "--role" [("warehouse", "WH1")]⟩

/-- Claim C7: loading a named section fails with a NotFound-kind error iff
the path does not exist, with a Malformed-kind error iff the file exists
but does not parse, with a MissingSection-kind error iff it parses but the
top-level section is absent, and on success returns exactly that section's
contents (__init__.py lines 33-47). -/
theorem claim_C7_load_section {α : Type} (fs : FileSystem α)
    (toml_file connection_name : String) :
    ((∃ msg, load_connection_from_toml fs toml_file connection_name =
        .error (.notFound msg)) ↔ fs toml_file = none) ∧
    ((∃ msg, load_connection_from_toml fs toml_file connection_name =
        .error (.malformed msg)) ↔
      ∃ emsg, fs toml_file = some (.malformed emsg)) ∧
    ((∃ msg, load_connection_from_toml fs toml_file connection_name =
        .error (.missingSection msg)) ↔
      ∃ toml_data, fs toml_file = some (.parsed toml_data) ∧
        lookup toml_data connection_name = none) ∧
    (∀ cfg, load_connection_from_toml fs toml_file connection_name =
        .ok cfg ↔
      ∃ toml_data, fs toml_file = some (.parsed toml_data) ∧
        lookup toml_data connection_name = some cfg) := by
  cases hfs : fs toml_file with
  | none => simp [load_connection_from_toml, hfs]
  | some tf =>
      cases tf with
      | malformed emsg => simp [load_connection_from_toml, hfs]
      | parsed toml_data =>
          cases hlk : lookup toml_data connection_name with
          | none => simp [load_connection_from_toml, hfs, hlk]
          | some cfg => simp [load_connection_from_toml, hfs, hlk]

theorem claim_C7_witness :
    (∃ msg, load_connection_from_toml fsSample "missing.toml" "dev" =
      .error (.notFound msg)) ∧
    (∃ msg, load_connection_from_toml fsSample "bad.toml" "dev" =
      .error (.malformed msg)) ∧
    (∃ msg, load_connection_from_toml fsSample "connections.toml" "prod" =
      .error (.missingSection msg)) ∧
    load_connection_from_toml fsSample "connections.toml" "dev" =
      .ok [("warehouse", "WF"), ("schema", "sc")] := by
  refine ⟨?_, ?_, ?_, ?_⟩
  · exact (claim_C7_load_section fsSample "missing.toml" "dev").1.mpr rfl
  · exact (claim_C7_load_section fsSample "bad.toml" "dev").2.1.mpr
      ⟨"parse error", rfl⟩
  · exact (claim_C7_load_section fsSample "connections.toml" "prod").2.2.1.mpr
      ⟨[("dev", [("warehouse", "WF"), ("schema", "sc")])], rfl, rfl⟩
  · exact ((claim_C7_load_section fsSample "connections.toml" "dev").2.2.2
      [("warehouse", "WF"), ("schema", "sc")]).mpr
      ⟨[("dev", [("warehouse", "WF"), ("schema", "sc")])], rfl, rfl⟩

/-- Claim C9 (implicit): only tokens at even positions are flag candidates;
when a non-flag token occupies an even position both it and the following
token are dropped and the following token is never read as a flag key, so
`["x", "--warehouse", "WH1"]` parses to the empty mapping
(__init__.py lines 99-109). -/
theorem claim_C9_even_position_flags :
    (∀ (k v : String) (rest : List String) (acc : Dict String),
      startsWithFlagMarker k = false →
      parse_unknown_args (k :: v :: rest) acc = parse_unknown_args rest acc) ∧
    parse_inline_arguments ["x", "--warehouse", "WH1"] = [] := by
  refine ⟨?_, rfl⟩
  intro k v rest acc h
  simp [parse_unknown_args, h]

theorem claim_C9_witness :
    parse_unknown_args ["x", "--warehouse", "WH1"] [] =
      parse_unknown_args ["WH1"] [] :=
  claim_C9_even_position_flags.1 "x" "--warehouse" ["WH1"] [] (by decide)

/-! ## Claim theorems: value normalizer / serializer -/

/-- Claim C4 is refuted by the code: on
`{"a": Decimal("1.5"), "b": float("nan")}` the JSON encoder serializes the
NaN float natively as the bare token `NaN` (`json.dumps` has
`allow_nan=True` by default and never consults the `default` hook for a
float), so `to_json` produces `"b": NaN` — not valid JSON and not parsing
back to null. The Decimal does go through the hook and becomes `1.5`.
This theorem evaluates `to_json` at that failing input
(serialization.py lines 22-23 and 67-69). -/
theorem claim_C4_to_json_nan_not_null :
    to_json (.dict (.cons "a" (.decimal (.finite (mkRat 3 2)))
        (.cons "b" (.float .nan) .nil))) =
      "\x7b\n  \"a\": 1.5,\n  \"b\": NaN\n\x7d" := by decide

/-- Claim C5: `_serialize_value` maps a date or timestamp to its ISO-8601
string, a Decimal to its float value, float NaN to None, and every other
value to itself unchanged; concretely, date 2024-03-05 yields
`"2024-03-05"`, `Decimal("3.14")` yields the float 3.14, and 42 is
unchanged (serialization.py lines 14-25). -/
theorem claim_C5_normalize_scalar :
    (∀ y m d, serialize_value (.date y m d) = .str (isoDate y m d)) ∧
    (∀ y mo d h mi s, serialize_value (.timestamp y mo d h mi s) =
      .str (isoTimestamp y mo d h mi s)) ∧
    (∀ d, serialize_value (.decimal d) = .float (floatOfDecimal d)) ∧
    serialize_value (.float .nan) = .noneV ∧
    (∀ v, isSpecial v = false → serialize_value v = v) ∧
    serialize_value (.date 2024 3 5) = .str "2024-03-05" ∧
    serialize_value (.decimal (.finite (mkRat 157 50))) =
      .float (.finite (mkRat 157 50)) ∧
    serialize_value (.int 42) = .int 42 := by
  refine ⟨fun y m d => rfl, fun y mo d h mi s => rfl, fun d => rfl, rfl,
    ?_, rfl, rfl, rfl⟩
  intro v hsp
  cases v with
  | noneV => rfl
  | bool b => rfl
  | int n => rfl
  | float f =>
      cases f with
      | nan => simp [isSpecial] at hsp
      | finite q => rfl
  | str s => rfl
  | decimal d => simp [isSpecial] at hsp
  | date y m d => simp [isSpecial] at hsp
  | timestamp y mo d h mi s => simp [isSpecial] at hsp
  | dict entries => rfl
  | list elems => rfl

theorem claim_C5_witness :
    isSpecial (.int 42) = false ∧ serialize_value (.int 42) = .int 42 :=
  ⟨rfl, claim_C5_normalize_scalar.2.2.2.2.1 (.int 42) rfl⟩

/-- Claim C8: `to_yaml` emits boolean, integer, float and string leaves
under the standard core scalar tags (booleans as lowercase `true`/`false`),
keeps keys in insertion order, and concretely renders
`{"flag": True, "n": 3}` as the plain lines `flag: true` and `n: 3`,
which read back as the original boolean and integer
(serialization.py lines 33-64). -/
theorem claim_C8_yaml_scalars :
    (∀ b, yamlRepresent (.bool b) =
      some (boolTag, if b then "true" else "false")) ∧
    (∀ n : Int, yamlRepresent (.int n) = some (intTag, toString n)) ∧
    (∀ q, yamlRepresent (.float (.finite q)) =
      some (floatTag, floatRepr q)) ∧
    (∀ s, (yamlRepresent (.str s)).map Prod.fst = some strTag) ∧
    (∀ k v rest, to_yaml (.dict (.cons k v rest)) =
      yamlLine k v ++ to_yaml (.dict rest)) ∧
    to_yaml (.dict (.cons "flag" (.bool true) (.cons "n" (.int 3) .nil))) =
      "flag: true\nn: 3\n" ∧
    resolvePlain "true" = .bool true ∧
    resolvePlain "3" = .int 3 :=
  ⟨fun b => rfl, fun n => rfl, fun q => rfl, fun s => rfl,
    fun k v rest => rfl, by decide, rfl, rfl⟩

/-- Claim C10 as stated is false of the code: `_serialize_value` applied
to `Decimal("nan")` returns `float(obj)` — float NaN, since the Decimal
branch precedes the NaN check and performs none of its own — and applying
it again returns None, so `f(f(v)) ≠ f(v)` at `v = Decimal("nan")`. -/
theorem claim_C10_counterexample :
    serialize_value (serialize_value (.decimal .nan)) ≠
      serialize_value (.decimal .nan) := by
  intro h
  exact PyVal.noConfusion h

/-- Claim C10 (implicit), amended: `_serialize_value` is idempotent on
every value other than a NaN-valued Decimal — each of its other outputs
(ISO string, float of a finite Decimal, None, or the unchanged
pass-through value) is a fixed point, while `Decimal("nan")` goes to float
NaN and then to None (serialization.py lines 14-25). -/
theorem claim_C10_idempotent_except_nan_decimal (v : PyVal)
    (h : v ≠ .decimal .nan) :
    serialize_value (serialize_value v) = serialize_value v := by
  cases v with
  | float f => cases f <;> rfl
  | decimal d =>
      cases d with
      | nan => exact absurd rfl h
      | finite q => rfl
  | noneV => rfl
  | bool b => rfl
  | int n => rfl
  | str s => rfl
  | date y m d => rfl
  | timestamp y mo d h mi s => rfl
  | dict entries => rfl
  | list elems => rfl

theorem claim_C10_witness :
    serialize_value (serialize_value (.int 7)) = serialize_value (.int 7) :=
  claim_C10_idempotent_except_nan_decimal (.int 7)
    (fun h => PyVal.noConfusion h)

end McpSnowflake
